import Mathlib

/-!
Verification of the MountainCircles glide-cone safety-altitude engine
(C++ sources under src/cpp and the unlabelled compilation units) against
its natural-language specification.

The C++ code is shallowly embedded: every scalar that the C++ stores in a
`float` is modelled as an exact rational (`ℚ`); `size_t` values are
modelled as `ℕ`, with the wrap-around of unsigned arithmetic made explicit
(mod 2^64) at the one place the source relies on it; code that can throw
is modelled in `Except`.

The single transcendental the engine uses is `hypot(Δi, Δj)` (an
irrational real in general).  To keep the whole development computable,
the distance function is passed as an explicit parameter
`hyp : ℤ → ℤ → ℚ`; all structural theorems below hold for every such
function, and concrete evaluations only ever apply `hyp` at axial
offsets, where the true `hypot` takes the integer value `|Δ|`
(the instance `hypAx` below agrees with `hypot` there).
-/

namespace MC

attribute [local semireducible] Rat.mul Rat.add Rat.sub Rat.inv

/-- Model of `class Cell` (src/cpp/data/Cell.h): elevation and altitude are
the `float` fields, `oi`/`oj` the stored origin indices (both default 0,
the source's "unset" sentinel), `i`/`j` the cell's own indices. -/
structure Cell where
  elevation : ℚ
  altitude : ℚ
  oi : ℕ
  oj : ℕ
  i : ℕ
  j : ℕ
  weight : ℕ
  ground : Bool
  mountain_pass : Bool
deriving DecidableEq, Repr

/-- Model of `class Params` (src/cpp/io/Params.h): numeric configuration as
exact rationals, the two global grid dimensions filled in by the raster
loader, and the three string fields. -/
structure Params where
  global_ncols : ℕ
  global_nrows : ℕ
  homex : ℚ
  homey : ℚ
  finesse : ℚ
  distSol : ℚ
  securite : ℚ
  nodataltitude : ℚ
  cellsize_m : ℚ
  cellsize_over_finesse : ℚ
  xllcorner : ℚ
  yllcorner : ℚ
  output_path : String
  topology : String
  exportPasses : String
deriving DecidableEq, Repr

/-- A concrete stand-in distance function for evaluating the model at
specific inputs.  On axial offsets it coincides with the C++ `hypot`:
`hypAx a 0 = |a|` and `hypAx 0 b = |b|`; every theorem below that is
quantified over `hyp` holds for it. -/
def hypAx : ℤ → ℤ → ℚ :=
  fun a b => if a = 0 then (b.natAbs : ℚ) else if b = 0 then (a.natAbs : ℚ) else ((a.natAbs + b.natAbs : ℕ) : ℚ)

/-- Model of `Cell::altitudeRequiseDepuis` (src/cpp/data/Cell.cpp:88-90):
`hypot(decalage_i, decalage_j) * cellsize_over_finesse + matrix[i][j].altitude`,
where `(si, sj)` are the indices of the cell the method is invoked on. -/
def altitudeRequiseDepuis (hyp : ℤ → ℤ → ℚ) (matrix : ℕ → ℕ → Cell) (si sj : ℕ)
    (decalage_i decalage_j : ℤ) (cellsize_over_finesse : ℚ) : ℚ :=
  hyp decalage_i decalage_j * cellsize_over_finesse + (matrix si sj).altitude

/-- The required-altitude expression `mat[oi][oj].altitudeRequiseDepuis(mat,
this->i - oi, this->j - oj, cellsize_over_finesse)` that opens
`Cell::calculate` (src/cpp/data/Cell.cpp:93). -/
def reqAlt (p : Params) (hyp : ℤ → ℤ → ℚ) (mat : ℕ → ℕ → Cell) (c : Cell) (oi oj : ℕ) : ℚ :=
  altitudeRequiseDepuis hyp mat oi oj ((c.i : ℤ) - (oi : ℤ)) ((c.j : ℤ) - (oj : ℤ))
    p.cellsize_over_finesse

/-- Model of `Cell::calculate` (src/cpp/data/Cell.cpp:92-112), the
relaxation step.  Returns the C++ return value paired with the new state
of `*this` (the C++ mutates the cell in place). -/
def Cell.calculate (p : Params) (hyp : ℤ → ℤ → ℚ) (mat : ℕ → ℕ → Cell) (c : Cell)
    (oi oj : ℕ) : Bool × Cell :=
  let requiredAltitude := reqAlt p hyp mat c oi oj
  if c.oi ≠ 0 ∧ requiredAltitude ≥ c.altitude then (false, c)
  else
    let c2 :=
      if requiredAltitude ≤ c.elevation then
        { c with altitude := c.elevation, oi := c.i, oj := c.j, ground := true }
      else
        { c with altitude := requiredAltitude, oi := oi, oj := oj }
    if requiredAltitude ≥ p.nodataltitude then (false, c2) else (true, c2)

/-- The specification's notion of "the cell already has an assigned
origin": the stored origin differs from the sentinel `(0, 0)`
(spec §3: origin is "Initialised to a sentinel unset … equal to (0,0) in
the source"). -/
def hasAssignedOrigin (c : Cell) : Prop := ¬(c.oi = 0 ∧ c.oj = 0)

instance (c : Cell) : Decidable (hasAssignedOrigin c) := by
  unfold hasAssignedOrigin; infer_instance

/-- Claim C1 exactly as stated, as a predicate of one call to
`Cell.calculate`: with `required` the candidate's required altitude,
(1) if the cell has an assigned origin and `required ≥ altitude` the call
returns `false` and leaves the cell unchanged; (2) otherwise the cell is
rewritten (to ground at its elevation, or to the candidate origin at
`required`), and the call returns `false` exactly when
`required ≥ nodataltitude`. -/
def ClaimC1 (p : Params) (hyp : ℤ → ℤ → ℚ) (mat : ℕ → ℕ → Cell) (c : Cell) (oi oj : ℕ) : Prop :=
  (hasAssignedOrigin c ∧ reqAlt p hyp mat c oi oj ≥ c.altitude →
      Cell.calculate p hyp mat c oi oj = (false, c)) ∧
  (¬(hasAssignedOrigin c ∧ reqAlt p hyp mat c oi oj ≥ c.altitude) →
      (reqAlt p hyp mat c oi oj ≤ c.elevation →
        (Cell.calculate p hyp mat c oi oj).2 =
          { c with altitude := c.elevation, oi := c.i, oj := c.j, ground := true }) ∧
      (reqAlt p hyp mat c oi oj > c.elevation →
        (Cell.calculate p hyp mat c oi oj).2 =
          { c with altitude := reqAlt p hyp mat c oi oj, oi := oi, oj := oj }) ∧
      ((Cell.calculate p hyp mat c oi oj).1 = false ↔
        reqAlt p hyp mat c oi oj ≥ p.nodataltitude))

/-- A concrete parameter block for evaluating the model:
`finesse = 1`, `cellsize = 1` (so `cellsize_over_finesse = 1`),
`nodataltitude = 1000`, clearances zero. -/
def pUnit : Params :=
  { global_ncols := 0, global_nrows := 0, homex := 0, homey := 0, finesse := 1,
    distSol := 0, securite := 0, nodataltitude := 1000, cellsize_m := 1,
    cellsize_over_finesse := 1, xllcorner := 0, yllcorner := 0,
    output_path := "", topology := "", exportPasses := "" }

/-- A cell whose stored origin `(0, 5)` lies in row 0 but is not the
sentinel `(0, 0)`: the spec regards it as having an assigned origin,
while the code's `oi != 0` test treats it as unset. -/
def cRow0 : Cell :=
  { elevation := 0, altitude := 10, oi := 0, oj := 5, i := 2, j := 3,
    weight := 0, ground := false, mountain_pass := false }

/-- A one-cell backdrop matrix whose every entry has altitude 10,
so that a candidate origin at `(1, 3)` yields `required = 1 * 1 + 10 = 11`. -/
def matRow0 : ℕ → ℕ → Cell :=
  fun a b => { elevation := 0, altitude := 10, oi := 0, oj := 0, i := a, j := b,
               weight := 0, ground := false, mountain_pass := false }

/-- Witness for C1's amended theorem: a concrete cell with stored origin
`(2, 5)` and `required = 11 ≥ altitude = 10` is left unchanged and the
call returns `false`. -/
def cGood : Cell :=
  { elevation := 0, altitude := 10, oi := 2, oj := 5, i := 2, j := 3,
    weight := 0, ground := false, mountain_pass := false }

/-! ### Visibility test (`Cell::isInView`, src/cpp/data/Cell.cpp:12-86)

`isInView` reads nothing of the matrix but the `ground` flags, so the grid
is modelled as `g : ℤ → ℤ → Bool`.  Coordinates are modelled as `ℤ`: along
the traversal the C++ `size_t` values never underflow (the walk stays
inside the bounding box of the two endpoints, and the corner reads only
step back toward the box), so no wrap-around occurs. -/

/-- The x-major branch of `Cell::isInView` (Cell.cpp:39-60): `n` is the
remaining iteration count of `for (size_t i = 0; i < dx; ++i)`; `error`
and `errorprev` enter each iteration equal (the C++ sets
`errorprev = error` at the end of every iteration and before the loop). -/
def losLoopX (g : ℤ → ℤ → Bool) (xstep ystep ddx ddy : ℤ) :
    ℕ → ℤ → ℤ → ℤ → ℤ → Bool
  | 0, _, _, _, _ => true
  | n + 1, x, y, error, errorprev =>
    let xn := x + xstep
    let e1 := error + ddy
    if e1 > ddx then
      let yn := y + ystep
      let e2 := e1 - ddx
      if e2 + errorprev < ddx ∧ g xn (yn - ystep) then false
      else if e2 + errorprev > ddx ∧ g (xn - xstep) yn then false
      else if g xn yn then false
      else losLoopX g xstep ystep ddx ddy n xn yn e2 e2
    else
      if g xn y then false
      else losLoopX g xstep ystep ddx ddy n xn y e1 e1

/-- The y-major branch of `Cell::isInView` (Cell.cpp:61-83). -/
def losLoopY (g : ℤ → ℤ → Bool) (xstep ystep ddx ddy : ℤ) :
    ℕ → ℤ → ℤ → ℤ → ℤ → Bool
  | 0, _, _, _, _ => true
  | n + 1, x, y, error, errorprev =>
    let yn := y + ystep
    let e1 := error + ddx
    if e1 > ddy then
      let xn := x + xstep
      let e2 := e1 - ddy
      if e2 + errorprev < ddy ∧ g (xn - xstep) yn then false
      else if e2 + errorprev > ddy ∧ g xn (yn - ystep) then false
      else if g xn yn then false
      else losLoopY g xstep ystep ddx ddy n xn yn e2 e2
    else
      if g x yn then false
      else losLoopY g xstep ystep ddx ddy n x yn e1 e1

/-- Model of `Cell::isInView` (Cell.cpp:12-86): `(x1, y1)` are `this`'s
indices, `(x2, y2)` the target.  Note the C++ initialises `error = dx` in
both branches. -/
def isInView (g : ℤ → ℤ → Bool) (x1 y1 x2 y2 : ℤ) : Bool :=
  if x1 = x2 ∧ y1 = y2 then true
  else if (x1 - x2).natAbs ≤ 1 ∧ (y1 - y2).natAbs ≤ 1 then true
  else
    let xstep : ℤ := if x2 > x1 then 1 else -1
    let ystep : ℤ := if y2 > y1 then 1 else -1
    let dx : ℕ := (x2 - x1).natAbs
    let dy : ℕ := (y2 - y1).natAbs
    let ddy : ℤ := (dy : ℤ) * 2
    let ddx : ℤ := (dx : ℤ) * 2
    if dy ≤ dx then losLoopX g xstep ystep ddx ddy dx x1 y1 (dx : ℤ) (dx : ℤ)
    else losLoopY g xstep ystep ddx ddy dy x1 y1 (dx : ℤ) (dx : ℤ)

/-- Point update of a ground-flag grid. -/
def updateG (g : ℤ → ℤ → Bool) (a b : ℤ) (v : Bool) : ℤ → ℤ → Bool :=
  fun x y => if x = a ∧ y = b then v else g x y

/-- Claim C4 as stated: the visibility test returns `true` immediately at
Chebyshev distance ≤ 1, and its result never depends on the ground flag
stored at either endpoint. -/
def ClaimC4 : Prop :=
  (∀ (g : ℤ → ℤ → Bool) (x1 y1 x2 y2 : ℤ),
    (x1 - x2).natAbs ≤ 1 ∧ (y1 - y2).natAbs ≤ 1 → isInView g x1 y1 x2 y2 = true) ∧
  (∀ (g : ℤ → ℤ → Bool) (x1 y1 x2 y2 : ℤ) (b1 b2 : Bool),
    isInView (updateG (updateG g x1 y1 b1) x2 y2 b2) x1 y1 x2 y2 = isInView g x1 y1 x2 y2)

/-! ### The cell grid (`class Matrix`, src/cpp/data/Matrix.h) and the
propagation engine (`Matrix::calculate_safety_altitude`, Cell.cpp:214-257) -/

/-- Model of `class Matrix`: the dense grid as a function from indices to
cells, plus the window bookkeeping fields. -/
structure Matrix where
  mat : ℕ → ℕ → Cell
  nrows : ℕ
  ncols : ℕ
  homei : ℕ
  homej : ℕ
  start_i : ℕ
  end_i : ℕ
  start_j : ℕ
  end_j : ℕ

/-- In-place mutation of `mat[i][j]`. -/
def Matrix.setCell (M : Matrix) (i j : ℕ) (c : Cell) : Matrix :=
  { M with mat := fun a b => if a = i ∧ b = j then c else M.mat a b }

/-- Model of `Matrix::isInsideMatrix` (Cell.cpp:259-261); the C++
`i >= 0` conjuncts are identically true for unsigned arguments. -/
def Matrix.isInsideMatrix (M : Matrix) (i j : ℕ) : Bool :=
  decide (i < M.nrows) && decide (j < M.ncols)

/-- `size_t + int` with the C++ unsigned wrap-around made explicit:
the `int` summand is converted to `size_t` and added modulo `2^64`. -/
def sizeAdd (i : ℕ) (d : ℤ) : ℕ :=
  (((i : ℤ) + d).emod (2 ^ 64)).toNat

/-- Model of `Matrix::neighbours_with_different_origin_for_stack`
(src/cpp/data/Matrix.h:25-48): the 4-neighbours (unsigned index
arithmetic, hence wrap-around at the borders) that are inside the matrix
and whose stored origin differs from that of `(i, j)`. -/
def Matrix.neighbours_with_different_origin_for_stack (M : Matrix) (i j : ℕ) :
    List (ℕ × ℕ × ℕ × ℕ) :=
  let c := M.mat i j
  let dirs : List (ℤ × ℤ) := [(-1, 0), (1, 0), (0, -1), (0, 1)]
  dirs.filterMap fun d =>
    let ni := sizeAdd i d.1
    let nj := sizeAdd j d.2
    if M.isInsideMatrix ni nj then
      if (M.mat ni nj).oi ≠ c.oi ∨ (M.mat ni nj).oj ≠ c.oj then some (ni, nj, i, j)
      else none
    else none

/-- The ground flags of a matrix as the grid read by `isInView`
(the C++ passes the whole `mat`; only `.ground` is read). -/
def Matrix.groundAt (M : Matrix) : ℤ → ℤ → Bool :=
  fun x y => if 0 ≤ x ∧ 0 ≤ y then (M.mat x.toNat y.toNat).ground else false

/-- One iteration of the `while (!stack.empty())` loop of
`Matrix::calculate_safety_altitude` (Cell.cpp:220-256): pop the front
tuple, apply the two skip guards, elect an origin via the line-of-sight
test, relax with `Cell::calculate`, and on an update push the neighbours
with different origins (computed on the updated matrix). -/
def stepProp (p : Params) (hyp : ℤ → ℤ → ℚ) :
    Matrix × List (ℕ × ℕ × ℕ × ℕ) → Matrix × List (ℕ × ℕ × ℕ × ℕ)
  | (M, []) => (M, [])
  | (M, (i, j, pa, pb) :: rest) =>
    let cell := M.mat i j
    let parent := M.mat pa pb
    if parent.oi = cell.oi ∧ parent.oj = cell.oj then (M, rest)
    else if cell.ground then (M, rest)
    else
      let oe :=
        if isInView M.groundAt (cell.i : ℤ) (cell.j : ℤ) (parent.oi : ℤ) (parent.oj : ℤ) then
          (parent.oi, parent.oj)
        else (parent.i, parent.j)
      if oe.1 = cell.oi ∧ oe.2 = cell.oj then (M, rest)
      else
        let r := Cell.calculate p hyp M.mat cell oe.1 oe.2
        let M2 := M.setCell i j r.2
        if r.1 then (M2, rest ++ M2.neighbours_with_different_origin_for_stack i j)
        else (M2, rest)

/-- The propagation loop, fuelled: the C++ iterates until the deque is
empty; `runProp fuel` performs at most `fuel` iterations (an empty queue
makes `stepProp` the identity). -/
def runProp (p : Params) (hyp : ℤ → ℤ → ℚ) :
    ℕ → Matrix × List (ℕ × ℕ × ℕ × ℕ) → Matrix × List (ℕ × ℕ × ℕ × ℕ)
  | 0, s => s
  | n + 1, s => runProp p hyp n (stepProp p hyp s)

/-- Model of `Matrix::calculate_safety_altitude` (Cell.cpp:214-257):
seed the stack with home's different-origin neighbours, then loop. -/
def Matrix.calculate_safety_altitude (p : Params) (hyp : ℤ → ℤ → ℚ) (fuel : ℕ)
    (M : Matrix) : Matrix :=
  (runProp p hyp fuel
    (M, M.neighbours_with_different_origin_for_stack M.homei M.homej)).1

/-- Model of `Cell::initialize` (Cell.cpp:6-10): `altitude = elevation +
securite`, origin set to self.  In `main` this runs BEFORE
`addGroundClearance`, so `elevation` here is the raw value read from the
raster. -/
def Cell.initCell (p : Params) (c : Cell) : Cell :=
  { c with altitude := c.elevation + p.securite, oi := c.i, oj := c.j }

/-- Model of `Matrix::addGroundClearance` (Cell.cpp:273-279): add
`distSol` to every in-window cell's elevation. -/
def Matrix.addGroundClearance (p : Params) (M : Matrix) : Matrix :=
  { M with mat := fun i j =>
      if i < M.nrows ∧ j < M.ncols then
        { M.mat i j with elevation := (M.mat i j).elevation + p.distSol }
      else M.mat i j }

/-- Model of `Matrix::update_altitude_for_ground_cells` (Cell.cpp:263-271). -/
def Matrix.update_altitude_for_ground_cells (M : Matrix) (altivisu : ℚ) : Matrix :=
  { M with mat := fun i j =>
      if i < M.nrows ∧ j < M.ncols then
        (if (M.mat i j).ground then { M.mat i j with altitude := altivisu } else M.mat i j)
      else M.mat i j }

/-- The bootstrap sequence of `main` (the unlabelled unit with `main`,
lines 19-21): `M.mat[homei][homej].initialize(params)` FOLLOWED BY
`M.addGroundClearance(params)` — initialization first, clearance second. -/
def Matrix.mainBootstrap (p : Params) (M : Matrix) : Matrix :=
  Matrix.addGroundClearance p (M.setCell M.homei M.homej (Cell.initCell p (M.mat M.homei M.homej)))

/-- A concrete 2×2 matrix whose cell origins all differ (each cell's
stored origin row is its own row index), for exercising the
neighbour enumeration at the border cell `(0, 0)`. -/
def MX : Matrix :=
  { mat := fun a b =>
      { elevation := 0, altitude := 1000, oi := a, oj := b, i := a, j := b,
        weight := 0, ground := false, mountain_pass := false },
    nrows := 2, ncols := 2, homei := 0, homej := 0,
    start_i := 0, end_i := 1, start_j := 0, end_j := 1 }

/-- A 2×2 matrix whose cell `(0, 0)` is flagged ground, with differing
origins so the queue entry is not skipped by the first guard. -/
def Mg : Matrix :=
  { mat := fun a b =>
      if a = 0 ∧ b = 0 then
        { elevation := 50, altitude := 50, oi := 0, oj := 0, i := 0, j := 0,
          weight := 0, ground := true, mountain_pass := false }
      else
        { elevation := 0, altitude := 1000, oi := a, oj := b, i := a, j := b,
          weight := 0, ground := false, mountain_pass := false },
    nrows := 2, ncols := 2, homei := 1, homej := 1,
    start_i := 0, end_i := 1, start_j := 0, end_j := 1 }

/-- Claim C2 as stated: after `main`'s bootstrap (home initialization,
then ground-clearance addition) and propagation, home's altitude equals
its raw input elevation plus `distSol` plus `securite`, and home is not
ground. -/
def ClaimC2 (p : Params) (hyp : ℤ → ℤ → ℚ) (fuel : ℕ) (M : Matrix) : Prop :=
  ((Matrix.calculate_safety_altitude p hyp fuel (M.mainBootstrap p)).mat M.homei M.homej).altitude
      = (M.mat M.homei M.homej).elevation + p.distSol + p.securite ∧
    ((Matrix.calculate_safety_altitude p hyp fuel (M.mainBootstrap p)).mat M.homei
      M.homej).ground = false

/-- `pUnit` with a nonzero ground clearance. -/
def p2 : Params := { pUnit with distSol := 100 }

/-- A 1×1 matrix as the loader produces it: elevation 0, altitude at the
ceiling, origin sentinel, not ground. -/
def M2c : Matrix :=
  { mat := fun a b =>
      { elevation := 0, altitude := 1000, oi := 0, oj := 0, i := a, j := b,
        weight := 0, ground := false, mountain_pass := false },
    nrows := 1, ncols := 1, homei := 0, homej := 0,
    start_i := 0, end_i := 0, start_j := 0, end_j := 0 }

/-! ### Raster-loader window arithmetic (`Matrix::readFile`, Cell.cpp:159-176) -/

/-- The clipped window computed by `Matrix::readFile`. -/
structure Window where
  radius : ℕ
  start_i : ℕ
  end_i : ℕ
  start_j : ℕ
  end_j : ℕ
deriving DecidableEq, Repr

/-- `static_cast<size_t>` of a (nonnegative) floating value truncates
toward zero, i.e. takes the floor.  (All casts in `readFile` are applied
to nonnegative quantities in a meaningful run; a negative operand would
be undefined behaviour in the C++.) -/
def cppTruncToSize (q : ℚ) : ℕ := (⌊q⌋).toNat

/-- The window arithmetic of `Matrix::readFile` (Cell.cpp:159-170):
`radius = static_cast<size_t>(nodataltitude / cellsize_over_finesse)`
(truncating), home converted to global indices by flooring, and the
square window clamped to the global grid (the C++ clamps `start` via
`max(int(home) - int(radius), 0)` and `end` via unsigned `min`). -/
def clipWindow (p : Params) (global_nrows global_ncols : ℕ) (xll yll cs : ℚ) : Window :=
  let cellsize_over_finesse := cs / p.finesse
  let radius := cppTruncToSize (p.nodataltitude / cellsize_over_finesse)
  let global_homei := global_nrows - 1 - cppTruncToSize ((p.homey - yll) / cs)
  let global_homej := cppTruncToSize ((p.homex - xll) / cs)
  { radius := radius,
    start_i := (max ((global_homei : ℤ) - (radius : ℤ)) 0).toNat,
    end_i := min (global_homei + radius) (global_nrows - 1),
    start_j := (max ((global_homej : ℤ) - (radius : ℤ)) 0).toNat,
    end_j := min (global_homej + radius) (global_ncols - 1) }

/-- Claim C5 as stated: the radius is `⌈nodataltitude / (cellsize /
glide_ratio)⌉` (rounded UP), and the window is the square of that radius
around the home cell clamped to the global grid bounds. -/
def ClaimC5 (p : Params) (global_nrows global_ncols : ℕ) (xll yll cs : ℚ) : Prop :=
  let r := (⌈p.nodataltitude / (cs / p.finesse)⌉).toNat
  let ghi := global_nrows - 1 - cppTruncToSize ((p.homey - yll) / cs)
  let ghj := cppTruncToSize ((p.homex - xll) / cs)
  clipWindow p global_nrows global_ncols xll yll cs =
    { radius := r,
      start_i := (max ((ghi : ℤ) - (r : ℤ)) 0).toNat,
      end_i := min (ghi + r) (global_nrows - 1),
      start_j := (max ((ghj : ℤ) - (r : ℤ)) 0).toNat,
      end_j := min (ghj + r) (global_ncols - 1) }

/-- Parameters for which `nodataltitude / (cellsize/finesse) = 5/2` is
not an integer, so flooring and rounding up differ. -/
def p5 : Params := { pUnit with nodataltitude := 5, finesse := 1, homex := 10, homey := 10 }

/-! ### Argument validation (`Params::Params`, src/cpp/io/Params.cpp:3-27) -/

/-- Value of a digit string, most significant first. -/
def natOfDigits (l : List Char) : ℕ :=
  List.foldl (fun a c => 10 * a + (c.toNat - 48)) 0 l

/-- Model of C++ `stoi`: skip leading spaces, optional sign, then a
nonempty digit prefix (trailing garbage ignored, as in `stoi`);
`none` models the `std::invalid_argument` throw. -/
def parseIntCpp (s : String) : Option ℤ :=
  let cs := s.toList.dropWhile (fun c => c = ' ')
  let core := fun (neg : Bool) (ds : List Char) =>
    let digs := ds.takeWhile Char.isDigit
    if digs.isEmpty then none
    else some (((if neg then -1 else 1) : ℤ) * (natOfDigits digs : ℤ))
  match cs with
  | '-' :: t => core true t
  | '+' :: t => core false t
  | t => core false t

/-- Model of C++ `stof`/`stod` on the decimal forms the program uses:
skip leading spaces, optional sign, nonempty digit prefix, optional
fractional part.  (Exponent forms are out of scope; `none` models the
`std::invalid_argument` throw.) -/
def parseFloatCpp (s : String) : Option ℚ :=
  let cs := s.toList.dropWhile (fun c => c = ' ')
  let core := fun (neg : Bool) (ds : List Char) =>
    let digs := ds.takeWhile Char.isDigit
    if digs.isEmpty then none
    else
      let rest := ds.drop digs.length
      let frac : ℚ :=
        match rest with
        | '.' :: t =>
          let fd := t.takeWhile Char.isDigit
          (natOfDigits fd : ℚ) / ((10 : ℚ) ^ fd.length)
        | _ => 0
      some (((if neg then -1 else 1) : ℚ) * ((natOfDigits digs : ℚ) + frac))
  match cs with
  | '-' :: t => core true t
  | '+' :: t => core false t
  | t => core false t

/-- Model of the `std::tolower` transform applied to `exportPasses`. -/
def toLowerCpp (s : String) : String := String.mk (s.toList.map Char.toLower)

def errArgs : String := "Not enough arguments provided."

def errNum : String := "invalid numeric argument"

def errExport : String := "Invalid value for exportPasses. Expected true, false, 0, or 1."

def strTrue : String := "true"

def strFalse : String := "false"

def str0 : String := "0"

def str1 : String := "1"

/-- Model of the `Params::Params(int argc, char* argv[])` constructor
(Params.cpp:3-27): `argv` is the full argument vector including the
program name (`argc = argv.length`).  The C++ rejects only `argc < 10`,
parses `argv[1..6]` numerically (a parse failure throws), lowercases
`argv[9]` and validates it against `true|false|0|1`. -/
def mkParams (argv : List String) : Except String Params :=
  if argv.length < 10 then Except.error errArgs
  else
    match parseFloatCpp (argv.getD 1 ""), parseFloatCpp (argv.getD 2 ""),
        parseIntCpp (argv.getD 3 ""), parseIntCpp (argv.getD 4 ""),
        parseIntCpp (argv.getD 5 ""), parseIntCpp (argv.getD 6 "") with
    | some hx, some hy, some fin, some ds, some sec, some nd =>
      let ep := toLowerCpp (argv.getD 9 "")
      if ep ≠ strTrue ∧ ep ≠ strFalse ∧ ep ≠ str0 ∧ ep ≠ str1 then Except.error errExport
      else
        Except.ok
          { global_ncols := 0, global_nrows := 0, homex := hx, homey := hy,
            finesse := (fin : ℚ), distSol := (ds : ℚ), securite := (sec : ℚ),
            nodataltitude := (nd : ℚ), cellsize_m := 0, cellsize_over_finesse := 0,
            xllcorner := 0, yllcorner := 0,
            output_path := argv.getD 7 "", topology := argv.getD 8 "", exportPasses := ep }
    | _, _, _, _, _, _ => Except.error errNum

/-- "A numeric argument is unparseable" for the nine-positional calling
convention. -/
def numericBad (argv : List String) : Prop :=
  parseFloatCpp (argv.getD 1 "") = none ∨ parseFloatCpp (argv.getD 2 "") = none ∨
  parseIntCpp (argv.getD 3 "") = none ∨ parseIntCpp (argv.getD 4 "") = none ∨
  parseIntCpp (argv.getD 5 "") = none ∨ parseIntCpp (argv.getD 6 "") = none

/-- "`exportPasses` is (case-insensitively) not one of true, false, 0, 1". -/
def exportBad (argv : List String) : Prop :=
  toLowerCpp (argv.getD 9 "") ≠ strTrue ∧ toLowerCpp (argv.getD 9 "") ≠ strFalse ∧
  toLowerCpp (argv.getD 9 "") ≠ str0 ∧ toLowerCpp (argv.getD 9 "") ≠ str1

/-- Claim C8 as stated: the constructor errors iff the number of
positional arguments differs from exactly nine, or a numeric argument is
unparseable, or `exportPasses` is invalid. -/
def ClaimC8 (argv : List String) : Prop :=
  (∃ e, mkParams argv = Except.error e) ↔
    (argv.length - 1 ≠ 9 ∨ numericBad argv ∨ exportBad argv)

/-- An invocation with TEN positional arguments (the tenth is spurious). -/
def argvX : List String :=
  ["prog", "1", "2", "3", "4", "5", "6", "out", "topo", "true", "EXTRA"]

def exceptOk {ε α : Type _} : Except ε α → Bool
  | Except.ok _ => true
  | Except.error _ => false

/-! ### Raster serialization: `Matrix::write_output` (Cell.cpp:281-321) and
`Matrix::readFile` (Cell.cpp:134-212)

Files are modelled as lists of lines.  Numeric payloads are rendered with
`renderQ`, which prints integral rationals the way C++ iostreams print
integral floats; non-integral formatting is out of scope (every value the
theorems serialize is integral). -/

def strSpace : String := " "

def ncolsLabel : String := "ncols "

def nrowsLabel : String := "nrows "

def xllLabel : String := "xllcorner "

def yllLabel : String := "yllcorner "

def cellsizeLabel : String := "cellsize "

def nodataLabel : String := "NODATA_value "

def errHeader : String := "Failed to read header from file."

def errEOF : String := "Unexpected end of file or read error when processing matrix."

def errElev : String := "Failed to read elevation data for cell"

/-- `line.substr(line.find(' ') + 1)`: everything after the first space
(the whole line when there is none, matching `npos + 1 = 0`). -/
def afterFirstSpace (s : String) : String :=
  match s.toList.dropWhile (fun c => c ≠ ' ') with
  | [] => s
  | _ :: t => String.mk t

/-- Decimal rendering of an integral rational. -/
def renderQ (q : ℚ) : String :=
  if q.den = 1 then toString q.num else toString q

/-- Splitting a line at single spaces: one token per
`iss_line.ignore(max, ' ')` / `operator>>` step of the C++ (the program's
own outputs and the raster inputs are single-space separated). -/
def splitSpacesAux : List Char → List Char → List String
  | [], acc => [String.mk acc.reverse]
  | c :: cs, acc =>
    if c = ' ' then String.mk acc.reverse :: splitSpacesAux cs []
    else splitSpacesAux cs (c :: acc)

def splitSpaces (s : String) : List String := splitSpacesAux s.toList []

/-- Space-joining, as the row writer emits it (a space between values,
none at the end of the row). -/
def joinSpace : List String → String
  | [] => ""
  | [t] => t
  | t :: l => t ++ strSpace ++ joinSpace l

/-- Parse `ncols` consecutive elevation tokens of one row
(`iss_line >> cell->elevation`, Cell.cpp:200): a missing or non-numeric
token raises the "Failed to read elevation data" error. -/
def parseRowTokens : List String → ℕ → Except String (List ℚ)
  | _, 0 => Except.ok []
  | [], _ + 1 => Except.error errElev
  | t :: ts, n + 1 =>
    match parseFloatCpp t with
    | none => Except.error errElev
    | some v =>
      match parseRowTokens ts n with
      | Except.error e => Except.error e
      | Except.ok vs => Except.ok (v :: vs)

/-- Read `nrows` data lines (after the `start_i` skipped ones), skipping
`start_j` leading tokens of each (Cell.cpp:186-207). -/
def buildRows : List String → ℕ → ℕ → ℕ → Except String (List (List ℚ))
  | _, 0, _, _ => Except.ok []
  | [], _ + 1, _, _ => Except.error errEOF
  | l :: ltail, n + 1, start_j, ncols =>
    match parseRowTokens ((splitSpaces l).drop start_j) ncols with
    | Except.error e => Except.error e
    | Except.ok row =>
      match buildRows ltail n start_j ncols with
      | Except.error e => Except.error e
      | Except.ok rows => Except.ok (row :: rows)

/-- Model of `Matrix::readFile` (Cell.cpp:134-212): five header lines
(`stoi`/`stof` on the text after the first space), the window arithmetic
of `clipWindow`, skip `start_i` lines, then parse the in-window cells,
initializing each cell's elevation and `altitude = nodataltitude`.
Returns the updated params (global dims, corners, cellsize) and the
matrix; any failure is an `Except.error` (the C++ throw). -/
def Matrix.readFile (p : Params) (lines : List String) : Except String (Params × Matrix) :=
  match lines with
  | l1 :: l2 :: l3 :: l4 :: l5 :: rest =>
    match parseIntCpp (afterFirstSpace l1), parseIntCpp (afterFirstSpace l2),
        parseFloatCpp (afterFirstSpace l3), parseFloatCpp (afterFirstSpace l4),
        parseFloatCpp (afterFirstSpace l5) with
    | some nc, some nr, some xll, some yll, some cz =>
      let p1 := { p with
        global_ncols := nc.toNat, global_nrows := nr.toNat,
        xllcorner := xll, yllcorner := yll, cellsize_m := cz,
        cellsize_over_finesse := cz / p.finesse }
      let W := clipWindow p1 nr.toNat nc.toNat xll yll cz
      let nrows := W.end_i - W.start_i + 1
      let ncols := W.end_j - W.start_j + 1
      let ghi := nr.toNat - 1 - cppTruncToSize ((p.homey - yll) / cz)
      let ghj := cppTruncToSize ((p.homex - xll) / cz)
      match buildRows (rest.drop W.start_i) nrows W.start_j ncols with
      | Except.error e => Except.error e
      | Except.ok rows =>
        Except.ok (p1,
          { mat := fun i j =>
              { elevation := (((rows.get? i).bind fun r => r.get? j).getD 0),
                altitude := p.nodataltitude, oi := 0, oj := 0, i := i, j := j,
                weight := 0, ground := false, mountain_pass := false },
            nrows := nrows, ncols := ncols,
            homei := ghi - W.start_i, homej := ghj - W.start_j,
            start_i := W.start_i, end_i := W.end_i,
            start_j := W.start_j, end_j := W.end_j })
    | _, _, _, _, _ => Except.error errHeader
  | _ => Except.error errHeader

/-- Model of `Matrix::write_output` (Cell.cpp:281-321): the six header
lines (including `NODATA_value`) over the re-anchored window, then the
rows; with `nozero` set, zero altitudes are replaced by the no-data
value. -/
def Matrix.write_output (p : Params) (M : Matrix) (nozero : Bool) : List String :=
  [ncolsLabel ++ toString M.ncols,
   nrowsLabel ++ toString M.nrows,
   xllLabel ++ renderQ (p.xllcorner + (M.start_j : ℚ) * p.cellsize_m),
   yllLabel ++ renderQ (p.yllcorner + ((p.global_nrows - 1 - M.end_i : ℕ) : ℚ) * p.cellsize_m),
   cellsizeLabel ++ renderQ p.cellsize_m,
   nodataLabel ++ renderQ p.nodataltitude]
  ++ (List.range M.nrows).map (fun i =>
      joinSpace ((List.range M.ncols).map (fun j =>
        if nozero ∧ (M.mat i j).altitude = 0 then renderQ p.nodataltitude
        else renderQ (M.mat i j).altitude)))

/-- Claim C6 as stated: for every computed grid, writing the
combine-variant raster and reading it back succeeds and reproduces the
grid of written values in the corresponding cells. -/
def ClaimC6 (p : Params) (M : Matrix) : Prop :=
  ∃ p2 M2, Matrix.readFile p (Matrix.write_output p M false) = Except.ok (p2, M2) ∧
    ∀ i j, i < M.nrows → j < M.ncols → (M2.mat i j).elevation = (M.mat i j).altitude

/-- Parameters of a 1×1 world for the round-trip instance. -/
def p6 : Params := { pUnit with global_nrows := 1, global_ncols := 1 }

/-- The computed 1×1 grid whose single altitude is `a`. -/
def M6a (a : ℚ) : Matrix :=
  { mat := fun i j =>
      { elevation := 0, altitude := a, oi := 0, oj := 0, i := i, j := j,
        weight := 0, ground := false, mountain_pass := false },
    nrows := 1, ncols := 1, homei := 0, homej := 0,
    start_i := 0, end_i := 0, start_j := 0, end_j := 0 }

/-! ### Pass post-processing and the program entry point (`main`, in the
unlabelled unit lines 13-47, with `Matrix::detect_passes`,
`Matrix::weight_passes`, `Matrix::update_cell_weight`,
`Matrix::write_mountain_passes`, Cell.cpp:323-389) -/

def errDepth : String := "Maximum recursion depth reached."

def csvHeader : String := "name,x,y,weight"

def passLabel : String := "pass,"

def commaStr : String := ","

def subPath : String := "/output_sub.asc"

def localPath : String := "/local.asc"

def csvPath : String := "/mountain_passes.csv"

def errorPre : String := "Error: "

def openFailPre : String := "Unable to open file "

def openFailSuf : String := " for writing."

/-- Model of `Matrix::detect_passes` (Cell.cpp:323-336): flag exactly the
cells whose origin is ground while they are not. -/
def Matrix.detect_passes (M : Matrix) : Matrix :=
  { M with mat := fun i j =>
      if i < M.nrows ∧ j < M.ncols then
        (let cell := M.mat i j
        if (M.mat cell.oi cell.oj).ground ∧ ¬cell.ground then
          { cell with mountain_pass := true }
        else { cell with mountain_pass := false })
      else M.mat i j }

/-- Model of `Matrix::update_cell_weight` (Cell.cpp:350-362): walk the
origin chain, incrementing each origin's weight, stopping at a ground or
self-referential cell; exhausting `max_depth` throws. -/
def Matrix.update_cell_weight : Matrix → Cell → ℕ → Except String Matrix
  | _, _, 0 => Except.error errDepth
  | M, cell, md + 1 =>
    let origin := M.mat cell.oi cell.oj
    let M2 := M.setCell cell.oi cell.oj { origin with weight := origin.weight + 1 }
    if ¬origin.ground ∧ (origin.i ≠ cell.i ∨ origin.j ≠ cell.j) then
      Matrix.update_cell_weight M2 { origin with weight := origin.weight + 1 } md
    else Except.ok M2

/-- The row-major traversal of `Matrix::weight_passes` (Cell.cpp:339-347). -/
def weightLoop : Matrix → List (ℕ × ℕ) → Except String Matrix
  | M, [] => Except.ok M
  | M, (i, j) :: rest =>
    match Matrix.update_cell_weight M (M.mat i j) 1000 with
    | Except.error e => Except.error e
    | Except.ok M2 => weightLoop M2 rest

def Matrix.weight_passes (M : Matrix) : Except String Matrix :=
  weightLoop M ((List.range M.nrows).flatMap fun i => (List.range M.ncols).map fun j => (i, j))

/-- Model of `Matrix::write_mountain_passes` (Cell.cpp:364-389): the CSV
lines (header, then one row per emitted pass). -/
def Matrix.write_mountain_passes (p : Params) (M : Matrix) : List String :=
  csvHeader :: ((List.range M.nrows).flatMap fun i => (List.range M.ncols).filterMap fun j =>
    let cell := M.mat i j
    let origine := M.mat cell.oi cell.oj
    let oorigine := M.mat origine.oi origine.oj
    if cell.mountain_pass ∧ cell.weight > 100 ∧ oorigine.ground then
      some (passLabel ++ renderQ (p.xllcorner + ((M.start_j + cell.j : ℕ) : ℚ) * p.cellsize_m)
        ++ commaStr
        ++ renderQ (p.yllcorner + ((p.global_nrows - 1 - M.start_i - cell.i : ℕ) : ℚ) *
            p.cellsize_m)
        ++ commaStr ++ toString cell.weight)
    else none)

/-- Model of `atoi`: the parsed integer prefix, 0 when unparseable. -/
def atoiCpp (s : String) : ℤ := (parseIntCpp s).getD 0

/-- `main`'s pass-export switch (unlabelled `main` unit, line 31). -/
def shouldExportPasses (p : Params) : Bool :=
  decide (p.exportPasses = strTrue) || decide (p.exportPasses = str1) ||
    decide (atoiCpp p.exportPasses ≠ 0)

/-- Observable outcome of one program run: the process exit code, the
error-stream lines, and the files written (name and content). -/
structure RunResult where
  exitCode : ℕ
  errStream : List String
  files : List (String × List String)

/-- A file-write step: on an openable path the content is written; on an
unopenable one `write_output`/`write_mountain_passes` print
"Unable to open file … for writing." on the error stream and RETURN
NORMALLY (Cell.cpp:318-320 and 386-388) — they do not throw. -/
def writeFileTo (canOpen : String → Bool)
    (st : List (String × List String) × List String) (name : String)
    (content : List String) : List (String × List String) × List String :=
  if canOpen name then (st.1 ++ [(name, content)], st.2)
  else (st.1, st.2 ++ [openFailPre ++ name ++ openFailSuf])

/-- Model of `main` (unlabelled unit, lines 13-47): params, raster load,
home initialization, ground clearance, propagation, ground flattening,
the two raster writes, the optional pass export, exit 0; any exception
is caught, printed as `Error: …` on the error stream, and turns into
exit 1. -/
def mainModel (hyp : ℤ → ℤ → ℚ) (fuel : ℕ) (canOpen : String → Bool)
    (argv topo : List String) : RunResult :=
  match mkParams argv with
  | Except.error e => { exitCode := 1, errStream := [errorPre ++ e], files := [] }
  | Except.ok p0 =>
    match Matrix.readFile p0 topo with
    | Except.error e => { exitCode := 1, errStream := [errorPre ++ e], files := [] }
    | Except.ok (p, M0) =>
      let M2 := Matrix.mainBootstrap p M0
      let M3 := Matrix.calculate_safety_altitude p hyp fuel M2
      let M4 := M3.update_altitude_for_ground_cells 0
      let st1 := writeFileTo canOpen ([], []) (p.output_path ++ subPath)
        (Matrix.write_output p M4 false)
      let st2 := writeFileTo canOpen st1 (p.output_path ++ localPath)
        (Matrix.write_output p M4 true)
      if shouldExportPasses p then
        match (M4.detect_passes).weight_passes with
        | Except.error e =>
          { exitCode := 1, errStream := st2.2 ++ [errorPre ++ e], files := st2.1 }
        | Except.ok M5 =>
          let st3 := writeFileTo canOpen st2 (p.output_path ++ csvPath)
            (Matrix.write_mountain_passes p M5)
          { exitCode := 0, errStream := st3.2, files := st3.1 }
      else { exitCode := 0, errStream := st2.2, files := st2.1 }

/-- Claim C7 as stated, for one run: if any of the three output files
cannot be opened for writing, the program exits nonzero (and emits a
diagnostic on the error stream). -/
def ClaimC7 (hyp : ℤ → ℤ → ℚ) (fuel : ℕ) (canOpen : String → Bool)
    (argv topo : List String) : Prop :=
  (canOpen (argv.getD 7 "" ++ subPath) = false ∨
   canOpen (argv.getD 7 "" ++ localPath) = false ∨
   canOpen (argv.getD 7 "" ++ csvPath) = false) →
  (mainModel hyp fuel canOpen argv topo).exitCode ≠ 0 ∧
    (mainModel hyp fuel canOpen argv topo).errStream ≠ []

/-- A nine-positional-argument invocation with pass export disabled. -/
def argv7 : List String :=
  ["prog", "0", "0", "20", "0", "0", "1000", "out", "topo", "false"]

/-- A 1×1 input raster (five header lines, one data row, no
NODATA_value line). -/
def topo7 : List String :=
  ["ncols 1", "nrows 1", "xllcorner 0", "yllcorner 0", "cellsize 100", "5"]

/-- Extract the payload of an `ok`, with a default for `error`. -/
def okD {ε α : Type _} (d : α) : Except ε α → α
  | Except.ok a => a
  | Except.error _ => d

/-- `Cell::calculate`, no-improvement exit (Cell.cpp:95-97). -/
theorem calculate_of_guard {p : Params} {hyp : ℤ → ℤ → ℚ} {mat : ℕ → ℕ → Cell} {c : Cell}
    {oi oj : ℕ} (h : c.oi ≠ 0 ∧ reqAlt p hyp mat c oi oj ≥ c.altitude) :
    Cell.calculate p hyp mat c oi oj = (false, c) := by
  simp only [Cell.calculate]
  rw [if_pos h]

/-- `Cell::calculate`, written cell when the guard does not fire
(Cell.cpp:98-107). -/
theorem calculate_snd_of_not_guard {p : Params} {hyp : ℤ → ℤ → ℚ} {mat : ℕ → ℕ → Cell}
    {c : Cell} {oi oj : ℕ} (h : ¬(c.oi ≠ 0 ∧ reqAlt p hyp mat c oi oj ≥ c.altitude)) :
    (Cell.calculate p hyp mat c oi oj).2 =
      if reqAlt p hyp mat c oi oj ≤ c.elevation then
        { c with altitude := c.elevation, oi := c.i, oj := c.j, ground := true }
      else
        { c with altitude := reqAlt p hyp mat c oi oj, oi := oi, oj := oj } := by
  simp only [Cell.calculate]
  rw [if_neg h]
  split <;> rfl

/-- `Cell::calculate`, return value when the guard does not fire
(Cell.cpp:108-111). -/
theorem calculate_fst_of_not_guard {p : Params} {hyp : ℤ → ℤ → ℚ} {mat : ℕ → ℕ → Cell}
    {c : Cell} {oi oj : ℕ} (h : ¬(c.oi ≠ 0 ∧ reqAlt p hyp mat c oi oj ≥ c.altitude)) :
    ((Cell.calculate p hyp mat c oi oj).1 = false ↔
      reqAlt p hyp mat c oi oj ≥ p.nodataltitude) := by
  simp only [Cell.calculate]
  rw [if_neg h]
  by_cases hn : reqAlt p hyp mat c oi oj ≥ p.nodataltitude
  · rw [if_pos hn]
    simp [hn]
  · rw [if_neg hn]
    simp [hn]

/-- C1 counterexample: for the cell `cRow0`, whose stored origin `(0, 5)`
is an assigned origin in the spec's sense (≠ sentinel `(0,0)`), and the
candidate origin `(1, 3)` with `required = 11 ≥ altitude = 10`, the claim
demands that `calculate` return `false` and leave the cell unchanged; the
code instead raises the altitude to 11 and returns `true`, because its
guard tests only `oi != 0`. -/
theorem claimC1_false_at_row0_origin : ¬ ClaimC1 pUnit hypAx matRow0 cRow0 1 3 := by
  intro h
  unfold ClaimC1 at h
  obtain ⟨h1, -⟩ := h
  have hfst : (Cell.calculate pUnit hypAx matRow0 cRow0 1 3).1 = true := by
    norm_num [Cell.calculate, reqAlt, altitudeRequiseDepuis, matRow0, cRow0, pUnit, hypAx]
  have hcond : hasAssignedOrigin cRow0 ∧ reqAlt pUnit hypAx matRow0 cRow0 1 3 ≥ cRow0.altitude := by
    constructor
    · unfold hasAssignedOrigin cRow0
      simp
    · norm_num [reqAlt, altitudeRequiseDepuis, matRow0, cRow0, pUnit, hypAx]
  rw [h1 hcond] at hfst
  exact Bool.false_ne_true hfst

/-- C1 (amended): postcondition of `Cell::calculate` with the guard as the
code implements it — the no-improvement exit fires when the stored origin
row `oi` is nonzero (not when the origin differs from the sentinel
`(0,0)`) and `required ≥ altitude`; otherwise the cell is rewritten
(ground at its elevation when `required ≤ elevation`, else the candidate
origin at `required`), and the call returns `false` iff
`required ≥ nodataltitude`. -/
theorem calculate_postcondition (p : Params) (hyp : ℤ → ℤ → ℚ) (mat : ℕ → ℕ → Cell)
    (c : Cell) (oi oj : ℕ) :
    (c.oi ≠ 0 ∧ reqAlt p hyp mat c oi oj ≥ c.altitude →
        Cell.calculate p hyp mat c oi oj = (false, c)) ∧
    (¬(c.oi ≠ 0 ∧ reqAlt p hyp mat c oi oj ≥ c.altitude) →
        (reqAlt p hyp mat c oi oj ≤ c.elevation →
          (Cell.calculate p hyp mat c oi oj).2 =
            { c with altitude := c.elevation, oi := c.i, oj := c.j, ground := true }) ∧
        (reqAlt p hyp mat c oi oj > c.elevation →
          (Cell.calculate p hyp mat c oi oj).2 =
            { c with altitude := reqAlt p hyp mat c oi oj, oi := oi, oj := oj }) ∧
        ((Cell.calculate p hyp mat c oi oj).1 = false ↔
          reqAlt p hyp mat c oi oj ≥ p.nodataltitude)) := by
  refine ⟨fun h => calculate_of_guard h, fun h => ⟨fun hle => ?_, fun hgt => ?_,
    calculate_fst_of_not_guard h⟩⟩
  · rw [calculate_snd_of_not_guard h, if_pos hle]
  · rw [calculate_snd_of_not_guard h, if_neg (not_le.mpr hgt)]

theorem calculate_postcondition_witness :
    Cell.calculate pUnit hypAx matRow0 cGood 1 3 = (false, cGood) :=
  (calculate_postcondition pUnit hypAx matRow0 cGood 1 3).1
    (by norm_num [reqAlt, altitudeRequiseDepuis, matRow0, cGood, pUnit, hypAx])

/-- `hypAx` is pointwise nonnegative, like the C++ `hypot`. -/
theorem hypAx_nonneg : ∀ a b : ℤ, 0 ≤ hypAx a b := by
  intro a b
  unfold hypAx
  split_ifs <;> positivity

/-- C10: `Cell::calculate` decides "no origin yet" by `oi != 0` alone, so
any cell whose stored origin lies in row 0 (any column) bypasses the
no-improvement guard: for every such cell there are a backing matrix
(agreeing with the cell at its own position) and a candidate origin for
which the call strictly increases the cell's altitude — relaxation is not
monotone for those cells. -/
theorem calculate_row0_origin_not_monotone (p : Params) (hyp : ℤ → ℤ → ℚ)
    (hcf : 0 ≤ p.cellsize_over_finesse) (hh : ∀ a b, 0 ≤ hyp a b)
    (c : Cell) (h0 : c.oi = 0) :
    ∃ mat : ℕ → ℕ → Cell, ∃ oi oj : ℕ, mat c.i c.j = c ∧
      c.altitude < (Cell.calculate p hyp mat c oi oj).2.altitude := by
  classical
  set big : ℚ := max c.altitude c.elevation + 1 with hbig
  set m : ℕ → ℕ → Cell := fun a b => if a = c.i ∧ b = c.j then c
      else { c with altitude := big, i := a, j := b } with hm
  refine ⟨m, c.i + 1, c.j, by simp [hm], ?_⟩
  have hne : ¬(c.i + 1 = c.i ∧ c.j = c.j) := by
    intro hcon
    omega
  have hmval : m (c.i + 1) c.j = { c with altitude := big, i := c.i + 1, j := c.j } := by
    show (if c.i + 1 = c.i ∧ c.j = c.j then c
        else { c with altitude := big, i := c.i + 1, j := c.j }) =
      { c with altitude := big, i := c.i + 1, j := c.j }
    rw [if_neg hne]
  have hreqval : reqAlt p hyp m c (c.i + 1) c.j =
      hyp ((c.i : ℤ) - ((c.i + 1 : ℕ) : ℤ)) ((c.j : ℤ) - (c.j : ℤ)) *
        p.cellsize_over_finesse + big := by
    unfold reqAlt altitudeRequiseDepuis
    rw [hmval]
  have hreq : big ≤ reqAlt p hyp m c (c.i + 1) c.j := by
    rw [hreqval]
    nlinarith [mul_nonneg (hh ((c.i : ℤ) - ((c.i + 1 : ℕ) : ℤ)) ((c.j : ℤ) - (c.j : ℤ))) hcf]
  have halt : c.altitude < big := by
    have := le_max_left c.altitude c.elevation
    linarith
  have helev : c.elevation < big := by
    have := le_max_right c.altitude c.elevation
    linarith
  have hguard : ¬(c.oi ≠ 0 ∧ reqAlt p hyp m c (c.i + 1) c.j ≥ c.altitude) := by
    intro hcon
    exact hcon.1 h0
  rw [calculate_snd_of_not_guard hguard,
    if_neg (show ¬(reqAlt p hyp m c (c.i + 1) c.j ≤ c.elevation) by intro hcon; linarith)]
  simp only []
  linarith

/-- Witness for C10's theorem at a concrete input: the cell `cRow0`
(stored origin `(0, 5)`, altitude 10) can have its altitude strictly
increased by a `calculate` call. -/
theorem calculate_row0_origin_not_monotone_witness :
    ∃ mat : ℕ → ℕ → Cell, ∃ oi oj : ℕ, mat cRow0.i cRow0.j = cRow0 ∧
      cRow0.altitude < (Cell.calculate pUnit hypAx mat cRow0 oi oj).2.altitude :=
  calculate_row0_origin_not_monotone pUnit hypAx (by norm_num [pUnit]) hypAx_nonneg cRow0 rfl

theorem updateG_ne {g : ℤ → ℤ → Bool} {a b x y : ℤ} {v : Bool}
    (h : ¬(x = a ∧ y = b)) : updateG g a b v x y = g x y :=
  if_neg h

/-- C4 counterexample: on the line from `(0,0)` to `(3,0)` the final loop
iteration inspects the target cell itself: flagging `(3,0)` ground flips
the result from `true` to `false`, so the result does depend on the
target endpoint's ground flag. -/
theorem claimC4_false_target_checked : ¬ ClaimC4 := by
  intro h
  have h2 := h.2 (fun _ _ => false) 0 0 3 0 false true
  have hL : isInView (updateG (updateG (fun _ _ => false) 0 0 false) 3 0 true) 0 0 3 0
      = false := by decide
  have hR : isInView (fun _ _ => false) 0 0 3 0 = true := by decide
  rw [hL, hR] at h2
  exact Bool.false_ne_true h2

/-- Start-cell independence of the x-major loop: provided the walk is
strictly past the start `(a, b)` in the driving direction (or still
standing on it), no remaining read touches `(a, b)`. -/
theorem losLoopX_update (g : ℤ → ℤ → Bool) (xstep ystep ddx ddy : ℤ)
    (hx : xstep = 1 ∨ xstep = -1) (hy : ystep = 1 ∨ ystep = -1) (a b : ℤ) (v : Bool) :
    ∀ (n : ℕ) (x y e ep : ℤ), (1 ≤ (x - a) * xstep ∨ (x = a ∧ y = b)) →
      losLoopX (updateG g a b v) xstep ystep ddx ddy n x y e ep =
        losLoopX g xstep ystep ddx ddy n x y e ep := by
  intro n
  induction n with
  | zero => intro x y e ep _; rfl
  | succ n ih =>
    intro x y e ep hinv
    have hxx : xstep * xstep = 1 := by rcases hx with h | h <;> rw [h] <;> norm_num
    have hy0 : ystep ≠ 0 := by rcases hy with h | h <;> rw [h] <;> norm_num
    have hnext : (1 : ℤ) ≤ (x + xstep - a) * xstep := by
      rcases hinv with h1 | ⟨ha, hb⟩
      · have hexp : (x + xstep - a) * xstep = (x - a) * xstep + xstep * xstep := by ring
        rw [hexp, hxx]; linarith
      · subst ha
        have hexp : (x + xstep - x) * xstep = xstep * xstep := by ring
        rw [hexp, hxx]
    have hxne : x + xstep ≠ a := by
      intro hcon
      rw [hcon] at hnext
      simp at hnext
    have hxa : ¬(x = a ∧ y + ystep = b) := by
      rintro ⟨ha, hb⟩
      rcases hinv with h1 | ⟨ha2, hb2⟩
      · rw [ha] at h1; simp at h1
      · subst hb2; omega
    have r1 : updateG g a b v (x + xstep) (y + ystep - ystep) =
        g (x + xstep) (y + ystep - ystep) := updateG_ne (fun hc => hxne hc.1)
    have r2 : updateG g a b v (x + xstep - xstep) (y + ystep) =
        g (x + xstep - xstep) (y + ystep) := by
      refine updateG_ne ?_
      rintro ⟨hA, hB⟩
      exact hxa ⟨by linarith, hB⟩
    have r3 : updateG g a b v (x + xstep) (y + ystep) = g (x + xstep) (y + ystep) :=
      updateG_ne (fun hc => hxne hc.1)
    have r4 : updateG g a b v (x + xstep) y = g (x + xstep) y :=
      updateG_ne (fun hc => hxne hc.1)
    simp only [losLoopX]
    rw [r1, r2, r3, r4]
    split_ifs <;> first
      | rfl
      | exact ih (x + xstep) (y + ystep) _ _ (Or.inl hnext)
      | exact ih (x + xstep) y _ _ (Or.inl hnext)

/-- Start-cell independence of the y-major loop. -/
theorem losLoopY_update (g : ℤ → ℤ → Bool) (xstep ystep ddx ddy : ℤ)
    (hx : xstep = 1 ∨ xstep = -1) (hy : ystep = 1 ∨ ystep = -1) (a b : ℤ) (v : Bool) :
    ∀ (n : ℕ) (x y e ep : ℤ), (1 ≤ (y - b) * ystep ∨ (x = a ∧ y = b)) →
      losLoopY (updateG g a b v) xstep ystep ddx ddy n x y e ep =
        losLoopY g xstep ystep ddx ddy n x y e ep := by
  intro n
  induction n with
  | zero => intro x y e ep _; rfl
  | succ n ih =>
    intro x y e ep hinv
    have hyy : ystep * ystep = 1 := by rcases hy with h | h <;> rw [h] <;> norm_num
    have hx0 : xstep ≠ 0 := by rcases hx with h | h <;> rw [h] <;> norm_num
    have hnext : (1 : ℤ) ≤ (y + ystep - b) * ystep := by
      rcases hinv with h1 | ⟨ha, hb⟩
      · have hexp : (y + ystep - b) * ystep = (y - b) * ystep + ystep * ystep := by ring
        rw [hexp, hyy]; linarith
      · subst hb
        have hexp : (y + ystep - y) * ystep = ystep * ystep := by ring
        rw [hexp, hyy]
    have hyne : y + ystep ≠ b := by
      intro hcon
      rw [hcon] at hnext
      simp at hnext
    have hya : ¬(x + xstep = a ∧ y = b) := by
      rintro ⟨ha, hb⟩
      rcases hinv with h1 | ⟨ha2, hb2⟩
      · rw [hb] at h1; simp at h1
      · subst ha2; omega
    have r1 : updateG g a b v (x + xstep - xstep) (y + ystep) =
        g (x + xstep - xstep) (y + ystep) := updateG_ne (fun hc => hyne hc.2)
    have r2 : updateG g a b v (x + xstep) (y + ystep - ystep) =
        g (x + xstep) (y + ystep - ystep) := by
      refine updateG_ne ?_
      rintro ⟨hA, hB⟩
      exact hya ⟨hA, by linarith⟩
    have r3 : updateG g a b v (x + xstep) (y + ystep) = g (x + xstep) (y + ystep) :=
      updateG_ne (fun hc => hyne hc.2)
    have r4 : updateG g a b v x (y + ystep) = g x (y + ystep) :=
      updateG_ne (fun hc => hyne hc.2)
    simp only [losLoopY]
    rw [r1, r2, r3, r4]
    split_ifs <;> first
      | rfl
      | exact ih (x + xstep) (y + ystep) _ _ (Or.inl hnext)
      | exact ih x (y + ystep) _ _ (Or.inl hnext)

/-- C4 (amended): the visibility test returns `true` immediately when the
endpoints coincide or are Chebyshev-distance ≤ 1 apart, and it never
inspects the ground flag of the START cell — its result is independent of
the start cell's flag.  (The target cell, by contrast, IS inspected by
the final loop step, as the counterexample shows.) -/
theorem isInView_cheb_and_start_independent (g : ℤ → ℤ → Bool) (x1 y1 x2 y2 : ℤ) :
    ((x1 - x2).natAbs ≤ 1 ∧ (y1 - y2).natAbs ≤ 1 → isInView g x1 y1 x2 y2 = true) ∧
    (∀ b : Bool, isInView (updateG g x1 y1 b) x1 y1 x2 y2 = isInView g x1 y1 x2 y2) := by
  constructor
  · intro hcheb
    unfold isInView
    by_cases heq : x1 = x2 ∧ y1 = y2
    · rw [if_pos heq]
    · rw [if_neg heq, if_pos hcheb]
  · intro b
    unfold isInView
    by_cases heq : x1 = x2 ∧ y1 = y2
    · rw [if_pos heq, if_pos heq]
    · rw [if_neg heq, if_neg heq]
      by_cases hcheb : (x1 - x2).natAbs ≤ 1 ∧ (y1 - y2).natAbs ≤ 1
      · rw [if_pos hcheb, if_pos hcheb]
      · rw [if_neg hcheb, if_neg hcheb]
        have hx : (if x2 > x1 then (1 : ℤ) else -1) = 1 ∨
            (if x2 > x1 then (1 : ℤ) else -1) = -1 := by
          split <;> simp
        have hy : (if y2 > y1 then (1 : ℤ) else -1) = 1 ∨
            (if y2 > y1 then (1 : ℤ) else -1) = -1 := by
          split <;> simp
        by_cases hd : (y2 - y1).natAbs ≤ (x2 - x1).natAbs
        · rw [if_pos hd, if_pos hd]
          exact losLoopX_update g _ _ _ _ hx hy x1 y1 b _ x1 y1 _ _ (Or.inr ⟨rfl, rfl⟩)
        · rw [if_neg hd, if_neg hd]
          exact losLoopY_update g _ _ _ _ hx hy x1 y1 b _ x1 y1 _ _ (Or.inr ⟨rfl, rfl⟩)

/-- Witness for C4's amended theorem at concrete inputs: Chebyshev-1
endpoints give `true`, and flagging the start cell of a length-5 line
does not change the result. -/
theorem isInView_cheb_and_start_independent_witness :
    isInView (fun _ _ => false) 0 0 1 1 = true ∧
    isInView (updateG (fun _ _ => false) 0 0 true) 0 0 5 0 =
      isInView (fun _ _ => false) 0 0 5 0 :=
  ⟨(isInView_cheb_and_start_independent (fun _ _ => false) 0 0 1 1).1 (by decide),
   (isInView_cheb_and_start_independent (fun _ _ => false) 0 0 5 0).2 true⟩

/-- C9: every tuple `(ni, nj, i, j)` produced by
`neighbours_with_different_origin_for_stack` has `ni < nrows` and
`nj < ncols` — the `isInsideMatrix` filter also discards the wrapped-around
unsigned indices produced at border cells (`i = 0` or `j = 0`), so the
propagation loop never indexes the matrix out of bounds through the
queue. -/
theorem neighbours_for_stack_in_bounds (M : Matrix) (i j : ℕ) :
    ∀ t ∈ M.neighbours_with_different_origin_for_stack i j,
      t.1 < M.nrows ∧ t.2.1 < M.ncols := by
  intro t ht
  unfold Matrix.neighbours_with_different_origin_for_stack at ht
  simp only [List.mem_filterMap] at ht
  obtain ⟨d, -, hsome⟩ := ht
  by_cases hin : M.isInsideMatrix (sizeAdd i d.1) (sizeAdd j d.2) = true
  · rw [if_pos hin] at hsome
    have hb : sizeAdd i d.1 < M.nrows ∧ sizeAdd j d.2 < M.ncols := by
      unfold Matrix.isInsideMatrix at hin
      simp only [Bool.and_eq_true, decide_eq_true_eq] at hin
      exact hin
    by_cases hdiff : (M.mat (sizeAdd i d.1) (sizeAdd j d.2)).oi ≠ (M.mat i j).oi ∨
        (M.mat (sizeAdd i d.1) (sizeAdd j d.2)).oj ≠ (M.mat i j).oj
    · rw [if_pos hdiff] at hsome
      obtain rfl : (sizeAdd i d.1, sizeAdd j d.2, i, j) = t := Option.some.inj hsome
      exact hb
    · rw [if_neg hdiff] at hsome
      exact absurd hsome (Option.some_ne_none _).symm
  · rw [if_neg hin] at hsome
    exact absurd hsome (Option.some_ne_none _).symm

/-- Witness for C9 at the border cell `(0, 0)` of `MX`: the tuple
`(1, 0, 0, 0)` is produced (the up/left neighbours wrapped around and
were discarded) and its indices are in bounds. -/
theorem neighbours_for_stack_in_bounds_witness :
    (1, 0, 0, 0) ∈ MX.neighbours_with_different_origin_for_stack 0 0 ∧
      (1, 0, 0, 0).1 < MX.nrows ∧ ((1, 0, 0, 0) : ℕ × ℕ × ℕ × ℕ).2.1 < MX.ncols :=
  ⟨by decide, neighbours_for_stack_in_bounds MX 0 0 (1, 0, 0, 0) (by decide)⟩

theorem setCell_ne {M : Matrix} {a b i j : ℕ} {c : Cell} (h : ¬(i = a ∧ j = b)) :
    (M.setCell a b c).mat i j = M.mat i j :=
  if_neg h

/-- One loop iteration never touches a ground cell: the popped cell is
the only one written, and a popped ground cell hits the
`if(cell.ground){continue;}` guard before `calculate`. -/
theorem stepProp_ground_frozen (p : Params) (hyp : ℤ → ℤ → ℚ)
    (s : Matrix × List (ℕ × ℕ × ℕ × ℕ)) (i j : ℕ)
    (hg : (s.1.mat i j).ground = true) :
    (stepProp p hyp s).1.mat i j = s.1.mat i j := by
  obtain ⟨M, q⟩ := s
  cases q with
  | nil => rfl
  | cons t rest =>
    obtain ⟨a, b, pa, pb⟩ := t
    simp only [stepProp]
    split_ifs <;>
      first
        | rfl
        | exact setCell_ne fun hc =>
            absurd (show (M.mat a b).ground = true by rw [← hc.1, ← hc.2]; exact hg)
              (by assumption)

/-- Iterating the loop never touches a ground cell. -/
theorem runProp_ground_frozen (p : Params) (hyp : ℤ → ℤ → ℚ) (n : ℕ) :
    ∀ (s : Matrix × List (ℕ × ℕ × ℕ × ℕ)) (i j : ℕ),
      (s.1.mat i j).ground = true →
      (runProp p hyp n s).1.mat i j = s.1.mat i j := by
  induction n with
  | zero => intro s i j _; rfl
  | succ n ih =>
    intro s i j hg
    have h1 := stepProp_ground_frozen p hyp s i j hg
    have hg2 : ((stepProp p hyp s).1.mat i j).ground = true := by rw [h1]; exact hg
    calc (runProp p hyp (n + 1) s).1.mat i j
        = (runProp p hyp n (stepProp p hyp s)).1.mat i j := rfl
      _ = (stepProp p hyp s).1.mat i j := ih _ i j hg2
      _ = s.1.mat i j := h1

/-- C3: ground cells are frozen — in every state of the propagation loop
(any matrix and any queue, hence in particular every reachable state),
once a cell's ground flag is true, no number of further loop iterations
changes that cell's altitude, origin `(oi, oj)`, or ground flag. -/
theorem ground_cells_frozen (p : Params) (hyp : ℤ → ℤ → ℚ) (M : Matrix)
    (q : List (ℕ × ℕ × ℕ × ℕ)) (i j n : ℕ) (hg : (M.mat i j).ground = true) :
    ((runProp p hyp n (M, q)).1.mat i j).altitude = (M.mat i j).altitude ∧
    ((runProp p hyp n (M, q)).1.mat i j).oi = (M.mat i j).oi ∧
    ((runProp p hyp n (M, q)).1.mat i j).oj = (M.mat i j).oj ∧
    ((runProp p hyp n (M, q)).1.mat i j).ground = true := by
  have h := runProp_ground_frozen p hyp n (M, q) i j hg
  exact ⟨by rw [h], by rw [h], by rw [h], by rw [h]; exact hg⟩

/-- Witness for C3: in a run that pops the ground cell `(0, 0)`, its
altitude, origin and ground flag are untouched. -/
theorem ground_cells_frozen_witness :
    ((runProp pUnit hypAx 3 (Mg, [(0, 0, 1, 1)])).1.mat 0 0).altitude = (Mg.mat 0 0).altitude ∧
    ((runProp pUnit hypAx 3 (Mg, [(0, 0, 1, 1)])).1.mat 0 0).oi = (Mg.mat 0 0).oi ∧
    ((runProp pUnit hypAx 3 (Mg, [(0, 0, 1, 1)])).1.mat 0 0).oj = (Mg.mat 0 0).oj ∧
    ((runProp pUnit hypAx 3 (Mg, [(0, 0, 1, 1)])).1.mat 0 0).ground = true :=
  ground_cells_frozen pUnit hypAx Mg [(0, 0, 1, 1)] 0 0 3 (by rfl)

/-- C2 counterexample: with `distSol = 100`, `securite = 0` and a 1×1
grid of elevation 0, `main` initializes home BEFORE adding the ground
clearance, so after bootstrap and (trivial) propagation home's altitude
is `0 + securite = 0`, not `0 + distSol + securite = 100`. -/
theorem claimC2_false_distSol_missing : ¬ ClaimC2 p2 hypAx 5 M2c := by
  intro h
  unfold ClaimC2 at h
  obtain ⟨h1, -⟩ := h
  unfold Matrix.calculate_safety_altitude at h1
  have hstack : (M2c.mainBootstrap p2).neighbours_with_different_origin_for_stack
      (M2c.mainBootstrap p2).homei (M2c.mainBootstrap p2).homej = [] := by decide
  rw [hstack] at h1
  have hrun : runProp p2 hypAx 5 (M2c.mainBootstrap p2, []) = (M2c.mainBootstrap p2, []) := rfl
  rw [hrun] at h1
  have hval : ((M2c.mainBootstrap p2).mat M2c.homei M2c.homej).altitude = 0 := by
    norm_num [Matrix.mainBootstrap, Matrix.addGroundClearance, Matrix.setCell,
      Cell.initCell, M2c, p2, pUnit]
  rw [hval] at h1
  norm_num [M2c, p2, pUnit] at h1

/-- C2 (amended): after `main`'s bootstrap sequence — which initializes
home BEFORE adding the ground clearance — the home cell's altitude equals
its raw (pre-clearance) input elevation plus `securite` only (`distSol`
is not included), its elevation has gained `distSol`, its origin is
itself, and its ground flag is unchanged (false as the loader left it). -/
theorem mainBootstrap_home (p : Params) (M : Matrix)
    (hi : M.homei < M.nrows) (hj : M.homej < M.ncols) :
    ((M.mainBootstrap p).mat M.homei M.homej).altitude
        = (M.mat M.homei M.homej).elevation + p.securite ∧
    ((M.mainBootstrap p).mat M.homei M.homej).elevation
        = (M.mat M.homei M.homej).elevation + p.distSol ∧
    ((M.mainBootstrap p).mat M.homei M.homej).oi = (M.mat M.homei M.homej).i ∧
    ((M.mainBootstrap p).mat M.homei M.homej).oj = (M.mat M.homei M.homej).j ∧
    ((M.mainBootstrap p).mat M.homei M.homej).ground = (M.mat M.homei M.homej).ground := by
  unfold Matrix.mainBootstrap Matrix.addGroundClearance Matrix.setCell Cell.initCell
  simp [hi, hj]

/-- Witness for C2's amended theorem on the concrete 1×1 grid. -/
theorem mainBootstrap_home_witness :
    ((M2c.mainBootstrap p2).mat M2c.homei M2c.homej).altitude
        = (M2c.mat M2c.homei M2c.homej).elevation + p2.securite ∧
    ((M2c.mainBootstrap p2).mat M2c.homei M2c.homej).elevation
        = (M2c.mat M2c.homei M2c.homej).elevation + p2.distSol ∧
    ((M2c.mainBootstrap p2).mat M2c.homei M2c.homej).oi = (M2c.mat M2c.homei M2c.homej).i ∧
    ((M2c.mainBootstrap p2).mat M2c.homei M2c.homej).oj = (M2c.mat M2c.homei M2c.homej).j ∧
    ((M2c.mainBootstrap p2).mat M2c.homei M2c.homej).ground
        = (M2c.mat M2c.homei M2c.homej).ground :=
  mainBootstrap_home p2 M2c (by decide) (by decide)

/-- C5 counterexample: with ceiling 5, cellsize 2 and glide ratio 1 the
quotient is `5/2`; the code truncates (`radius = 2`) where the claim
rounds up (`radius = 3`), and the windows differ accordingly. -/
theorem claimC5_false_radius_truncated : ¬ ClaimC5 p5 100 100 0 0 2 := by
  intro h
  unfold ClaimC5 clipWindow at h
  have hr := congrArg Window.radius h
  simp only [] at hr
  norm_num [p5, pUnit, cppTruncToSize] at hr
  have hceil : ⌈(5 : ℚ) / 2⌉ = 3 := by
    rw [Int.ceil_eq_iff]
    norm_num
  rw [hceil] at hr
  exact absurd hr (by decide)

/-- C5 (amended): the radius is `⌊nodataltitude / (cellsize /
glide_ratio)⌋` (truncated DOWN, via the `static_cast<size_t>`), and the
window `[start_i..end_i] × [start_j..end_j]` is the square of that radius
around the home cell clamped to the global grid bounds. -/
theorem clipWindow_floor_radius_clamped (p : Params) (global_nrows global_ncols : ℕ)
    (xll yll cs : ℚ) :
    let ghi := global_nrows - 1 - cppTruncToSize ((p.homey - yll) / cs)
    let ghj := cppTruncToSize ((p.homex - xll) / cs)
    let W := clipWindow p global_nrows global_ncols xll yll cs
    W.radius = (⌊p.nodataltitude / (cs / p.finesse)⌋).toNat ∧
    (W.start_i : ℤ) = max ((ghi : ℤ) - (W.radius : ℤ)) 0 ∧
    W.end_i = min (ghi + W.radius) (global_nrows - 1) ∧
    (W.start_j : ℤ) = max ((ghj : ℤ) - (W.radius : ℤ)) 0 ∧
    W.end_j = min (ghj + W.radius) (global_ncols - 1) := by
  refine ⟨rfl, ?_, rfl, ?_, rfl⟩
  · exact Int.toNat_of_nonneg (le_max_right _ _)
  · exact Int.toNat_of_nonneg (le_max_right _ _)

/-- C8 counterexample: the constructor checks only `argc < 10`, so an
invocation with TEN positional arguments (≠ 9) is accepted, refuting the
"rejects iff the count differs from exactly nine …" claim. -/
theorem claimC8_false_extra_args_accepted : ¬ ClaimC8 argvX := by
  intro h
  obtain ⟨e, he⟩ := h.mpr (Or.inl (by decide))
  have hok : exceptOk (mkParams argvX) = true := rfl
  rw [he] at hok
  exact absurd hok (by rw [exceptOk]; exact Bool.false_ne_true)

/-- C8 (amended): constructing `Params` errors if and only if FEWER than
nine positional arguments are supplied (`argc < 10`; surplus arguments
are silently ignored), or a numeric argument is unparseable, or
`exportPasses` (case-insensitively) is not one of true, false, 0, 1. -/
theorem mkParams_error_iff (argv : List String) :
    (∃ e, mkParams argv = Except.error e) ↔
      (argv.length < 10 ∨ numericBad argv ∨ exportBad argv) := by
  unfold mkParams numericBad exportBad
  by_cases hl : argv.length < 10
  · simp [hl]
  · rw [if_neg hl]
    simp only [hl, false_or]
    cases h1 : parseFloatCpp (argv.getD 1 "") with
    | none => simp [h1]
    | some v1 =>
      cases h2 : parseFloatCpp (argv.getD 2 "") with
      | none => simp [h1, h2]
      | some v2 =>
        cases h3 : parseIntCpp (argv.getD 3 "") with
        | none => simp [h1, h2, h3]
        | some v3 =>
          cases h4 : parseIntCpp (argv.getD 4 "") with
          | none => simp [h1, h2, h3, h4]
          | some v4 =>
            cases h5 : parseIntCpp (argv.getD 5 "") with
            | none => simp [h1, h2, h3, h4, h5]
            | some v5 =>
              cases h6 : parseIntCpp (argv.getD 6 "") with
              | none => simp [h1, h2, h3, h4, h5, h6]
              | some v6 =>
                simp only [h1, h2, h3, h4, h5, h6]
                by_cases hep : toLowerCpp (argv.getD 9 "") ≠ strTrue ∧
                    toLowerCpp (argv.getD 9 "") ≠ strFalse ∧
                    toLowerCpp (argv.getD 9 "") ≠ str0 ∧ toLowerCpp (argv.getD 9 "") ≠ str1
                · rw [if_pos hep]
                  exact ⟨fun _ => Or.inr hep, fun _ => ⟨errExport, rfl⟩⟩
                · rw [if_neg hep]
                  constructor
                  · rintro ⟨e, he⟩
                    exact Except.noConfusion he
                  · rintro (hn | hb)
                    · rcases hn with h | h | h | h | h | h <;> exact Option.noConfusion h
                    · exact absurd hb hep

/-- C6 counterexample: reading back the written `output_sub.asc` fails —
`readFile` parses only five header lines and then treats the
`NODATA_value` line as the first data row, whose first token is not
numeric. -/
theorem claimC6_false_nodata_line : ¬ ClaimC6 p6 (M6a 42) := by
  intro h
  obtain ⟨p2, M2, hok, -⟩ := h
  have hw : Matrix.write_output p6 (M6a 42) false =
      ["ncols 1", "nrows 1", "xllcorner 0", "yllcorner 0", "cellsize 1", "NODATA_value 1000",
        renderQ 42] := by
    with_unfolding_all rfl
  rw [hw] at hok
  have hre : Matrix.readFile p6
      ["ncols 1", "nrows 1", "xllcorner 0", "yllcorner 0", "cellsize 1", "NODATA_value 1000",
        renderQ 42] = Except.error errElev := by rfl
  rw [hre] at hok
  exact Except.noConfusion hok

/-- C6 (amended): the round-trip fails — for every written altitude
value, re-reading the combine-variant raster written for the 1×1 window
raises the elevation-parse error on the `NODATA_value` header line, which
`readFile` (reading only five header lines) consumes as the first data
row.  (A file without the `NODATA_value` line would be read back as
elevations.) -/
theorem readFile_write_output_fails (a : ℚ) :
    Matrix.readFile p6 (Matrix.write_output p6 (M6a a) false) = Except.error errElev := by
  have hw : Matrix.write_output p6 (M6a a) false =
      ["ncols 1", "nrows 1", "xllcorner 0", "yllcorner 0", "cellsize 1", "NODATA_value 1000",
        renderQ a] := by
    with_unfolding_all rfl
  rw [hw]
  rfl

/-- C7 counterexample: a run in which NO output file can be opened still
exits 0 — `write_output` prints its diagnostic on the error stream and
returns normally instead of throwing. -/
theorem claimC7_false_exit_zero : ¬ ClaimC7 hypAx 4 (fun _ => false) argv7 topo7 := by
  intro h
  have h1 := h (Or.inl rfl)
  exact h1.1 (by with_unfolding_all rfl)

/-- C7 (amended): in every run that reaches the writing stage (arguments
parse, the raster loads, pass export disabled) in which `output_sub.asc`
cannot be opened for writing, the program emits the "Unable to open
file … for writing." diagnostic on the error stream but CONTINUES and
exits 0 — raster-writer open failures are not fatal. -/
theorem mainModel_open_fail_diagnosed_exit_zero
    (hyp : ℤ → ℤ → ℚ) (fuel : ℕ) (canOpen : String → Bool) (argv topo : List String)
    (hp : exceptOk (mkParams argv) = true)
    (hr : exceptOk (Matrix.readFile (okD pUnit (mkParams argv)) topo) = true)
    (hexp : shouldExportPasses
        (okD (pUnit, M2c) (Matrix.readFile (okD pUnit (mkParams argv)) topo)).1 = false)
    (hfail : canOpen
        ((okD (pUnit, M2c) (Matrix.readFile (okD pUnit (mkParams argv)) topo)).1.output_path
          ++ subPath) = false) :
    (mainModel hyp fuel canOpen argv topo).exitCode = 0 ∧
      (openFailPre ++
          ((okD (pUnit, M2c) (Matrix.readFile (okD pUnit (mkParams argv)) topo)).1.output_path
            ++ subPath) ++ openFailSuf) ∈
        (mainModel hyp fuel canOpen argv topo).errStream := by
  cases hmk : mkParams argv with
  | error e =>
    rw [hmk] at hp
    simp [exceptOk] at hp
  | ok p0 =>
    rw [hmk] at hr hexp hfail
    simp only [okD] at hr hexp hfail
    cases hrf : Matrix.readFile p0 topo with
    | error e =>
      rw [hrf] at hr
      simp [exceptOk] at hr
    | ok pm =>
      rw [hrf] at hexp hfail
      simp only [okD] at hexp hfail
      obtain ⟨p, M0⟩ := pm
      simp only [] at hexp hfail
      unfold mainModel
      rw [hmk]
      simp only [okD, hrf, hexp, writeFileTo, hfail, Bool.false_eq_true, if_false,
        List.nil_append]
      by_cases hloc : canOpen (p.output_path ++ localPath) = true
      · simp [hloc]
      · simp only [Bool.not_eq_true] at hloc
        simp [hloc]

/-- Witness for C7's amended theorem: the concrete all-unopenable run
exits 0 with the diagnostic on the error stream. -/
theorem mainModel_open_fail_diagnosed_exit_zero_witness :
    (mainModel hypAx 4 (fun _ => false) argv7 topo7).exitCode = 0 ∧
      (openFailPre ++
          ((okD (pUnit, M2c) (Matrix.readFile (okD pUnit (mkParams argv7)) topo7)).1.output_path
            ++ subPath) ++ openFailSuf) ∈
        (mainModel hypAx 4 (fun _ => false) argv7 topo7).errStream :=
  mainModel_open_fail_diagnosed_exit_zero hypAx 4 (fun _ => false) argv7 topo7
    (by with_unfolding_all rfl) (by with_unfolding_all rfl) (by with_unfolding_all rfl) rfl

end MC
